import Mathlib

/-!
Verification development for the codpy RKHS kernel model
(`src/codpy/kernel.py`, class `Kernel`).

The Python class is embedded shallowly: the mutable object becomes an
explicit state record `KernelState`; every method becomes a Lean function
threading that state; methods that can raise return `Except String`.
The numerical backend (`core.op.Knm`, `core.op.Knm_inv`, `core.op.Dnm`,
`alg.HybridGreedyNystroem`, `alg.add`, `lsap`, `cd.alg.encoder`, the
sklearn polynomial fit) is opaque and deterministic per the spec, so it
is a structure of abstract functions `Backend`; matrices are lists of
rows of integer entries.
-/

namespace Codpy

/-- A matrix: a list of rows of entries (numpy 2-d arrays; the float
entries are idealized as exact integers — every claim is structural, so
only exact arithmetic on concrete inputs is ever needed, and the
numerical backend is opaque). -/
abbrev Mat := List (List ℤ)

/-- Number of rows (`m.shape[0]`). -/
def nrows (m : Mat) : Nat := m.length

/-- Number of columns (`m.shape[1]`, read off the first row). -/
def ncols (m : Mat) : Nat := (m.headD []).length

/-- Dot product of two rows. -/
def dot (a b : List ℤ) : ℤ := (List.zipWith (fun u v => u * v) a b).sum

/-- Matrix product (`lalg.prod`, and `numpy` `@`). -/
def matMul (a b : Mat) : Mat :=
  a.map (fun r => b.transpose.map (fun c => dot r c))

/-- Entrywise matrix addition (`numpy` `+` on same-shape arrays). -/
def matAdd (a b : Mat) : Mat :=
  List.zipWith (fun r s => List.zipWith (fun u v => u + v) r s) a b

/-- Entrywise matrix subtraction (`numpy` `-` on same-shape arrays). -/
def matSub (a b : Mat) : Mat :=
  List.zipWith (fun r s => List.zipWith (fun u v => u - v) r s) a b

/-- Row selection by an index list (`x[indices]` fancy indexing). -/
def selectRows (m : Mat) (idx : List Nat) : Mat :=
  idx.map (fun i => m.getD i [])

/-- Maximum of a list of entries (`np.max` along an axis; the empty
case never arises in the modelled paths). -/
def maxList : List ℤ → ℤ
  | [] => 0
  | a :: t => t.foldl max a

/-- Column-wise maxima (`np.max(D, axis=0)`). -/
def colMax (m : Mat) : List ℤ := m.transpose.map maxList

/-- Auxiliary loop for `argmaxIdx`: index of the first maximal entry. -/
def argmaxAux : List ℤ → Nat → Nat → ℤ → Nat
  | [], _, best, _ => best
  | a :: t, i, best, bv =>
      if bv < a then argmaxAux t (i + 1) i a else argmaxAux t (i + 1) best bv

/-- First index attaining the maximum (`np.argmax`, which returns the
first maximal position). -/
def argmaxIdx : List ℤ → Nat
  | [] => 0
  | a :: t => argmaxAux t 1 0 a

/-- The opaque numerical backend of the spec (§6): deterministic pure
functions behind `core.op`, `alg`, `lsap`, the encoder and the sklearn
polynomial least-squares fit. -/
structure Backend where
  /-- `core.op.Knm(x, y)`: Gram matrix. -/
  Knm : Mat → Mat → Mat
  /-- `core.op.Knm_inv(x, y, epsilon)`: regularized inverse / solve. -/
  KnmInv : Mat → Mat → ℚ → Mat
  /-- `core.op.Dnm(x, y)`: pairwise kernel-distance matrix. -/
  Dnm : Mat → Mat → Mat
  /-- `PolynomialFeatures(order).fit_transform(x)`. -/
  polyFeatures : Nat → Mat → Mat
  /-- `LinearRegression().fit(vars, fx).predict(zvars)`: the fitted
  linear model is a pure function of the fitted features and targets. -/
  polyFitPredict : Mat → Mat → Mat → Mat
  /-- `alg.HybridGreedyNystroem(x, fx, N, tol, error_type)`. -/
  hybridGreedy : Mat → Mat → Nat → String → Mat × List Nat
  /-- `alg.add(K, Kinv, X, Yblock)`: block-matrix update. -/
  blockAdd : Mat → Mat → Mat → Mat → Mat × Mat × Mat
  /-- `lsap(D, sub)`: linear sum assignment permutation. -/
  lsap : Mat → Bool → List Nat
  /-- `cd.alg.encoder(x, y)`: cross-dimension latent permutation. -/
  encoder : Mat → Mat → List Nat

/-- The mutable state of a `Kernel` object.  Python attributes that may
be absent or `None` both become `none` (every read of such an attribute
in the class goes through a `hasattr`/`is None` guard, except where
noted in the operations below).  `Knm_upd`/`Knm_inv_upd` mirror the
capital-letter attributes `self.Knm` / `self.Knm_inv` assigned in
`add` — distinct, by Python case-sensitivity, from the cache fields
`self.knm` / `self.knm_inv`. -/
structure KernelState where
  order : Option Nat
  reg : ℚ
  max_pool : Nat
  max_nystrom : Nat
  x : Option Mat
  y : Option Mat
  fx : Option Mat
  knm : Option Mat
  knm_inv : Option Mat
  theta : Option Mat
  polyvariables : Option Mat
  polynomial_kernel : Option (Mat × Mat)
  polynomial_values : Option Mat
  kernel : Option Unit
  permutation : Option (List Nat)
  Knm_upd : Option Mat
  Knm_inv_upd : Option Mat
  deriving DecidableEq, Repr

/-- `Kernel.__init__` with keyword data absent: only `order`, `reg` and
the pool bounds are set; `x` is `None` and every other data attribute is
not yet created. -/
def initState (order : Option Nat) (reg : ℚ) : KernelState :=
  { order := order, reg := reg, max_pool := 1000, max_nystrom := 1000,
    x := none, y := none, fx := none, knm := none, knm_inv := none,
    theta := none, polyvariables := none, polynomial_kernel := none,
    polynomial_values := none, kernel := none, permutation := none,
    Knm_upd := none, Knm_inv_upd := none }

/-- Clearing branch of `Kernel._set_polynomial_regressor`: the three
polynomial attributes are set to `None`. -/
def clearPoly (s : KernelState) : KernelState :=
  { s with polyvariables := none, polynomial_kernel := none,
           polynomial_values := none }

/-- `Kernel.set_theta(theta)`: assigns `theta`; when it is not `None`,
`fx` is cleared (theta becomes the source of truth). -/
def set_theta (s : KernelState) (t : Option Mat) : KernelState :=
  match t with
  | none => { s with theta := none }
  | some tv => { s with theta := some tv, fx := none }

/-- `Kernel._set_polynomial_regressor(x, fx)`: clears the polynomial
state when `x`, `fx` or the order is absent; otherwise fits the
polynomial least-squares model and clears theta. -/
def setPolyReg (B : Backend) (s : KernelState) (x fx : Option Mat) :
    KernelState :=
  match s.order, x, fx with
  | some d, some xm, some fxm =>
      let v := B.polyFeatures d xm
      set_theta
        { s with polyvariables := some v,
                 polynomial_kernel := some (v, fxm),
                 polynomial_values := some (B.polyFitPredict v fxm v) }
        none
  | _, _, _ => clearPoly s

/-- `Kernel.rescale` / `Kernel.set_kernel_ptr`: primes the backend's
process-wide kernel configuration and (re)records the kernel handle;
the only instance-visible effect is that `self.kernel` is set. -/
def rescale (s : KernelState) : KernelState :=
  { s with kernel := some () }

/-- `Kernel.set_y(y)`: `y = x` when the argument is absent, else a copy
of the argument.  No cache is touched. -/
def set_y (s : KernelState) (yArg : Option Mat) : KernelState :=
  match yArg with
  | none => { s with y := s.x }
  | some w => { s with y := some w }

/-- `Kernel.set_x(x, set_polynomial_regressor)`: stores a copy of `x`,
resets `y` to `x`, optionally clears the polynomial state, clears the
Gram inverse (which also clears theta), clears the Gram matrix and
rescales. -/
def set_x (s : KernelState) (x : Mat) (spr : Bool) : KernelState :=
  let s1 := { s with x := some x }
  let s2 := set_y s1 none
  let s3 := if spr then clearPoly s2 else s2
  let s4 := set_theta { s3 with knm_inv := none } none
  let s5 := { s4 with knm := none }
  rescale s5

/-- `Kernel.set_fx(fx, set_polynomial_regressor)`: stores a copy of `fx`
(or `None`), optionally clears the polynomial state, clears theta. -/
def set_fx (s : KernelState) (fxArg : Option Mat) (spr : Bool) :
    KernelState :=
  let s1 := { s with fx := fxArg }
  let s2 := if spr then clearPoly s1 else s1
  set_theta s2 none

/-- `Kernel.get_knm()`: lazily computes `core.op.Knm(self.x, self.y)`;
reads `self.x` and `self.y` directly, so an absent point set surfaces as
a backend error. -/
def get_knm (B : Backend) (s : KernelState) :
    Except String (Mat × KernelState) :=
  match s.knm with
  | some k => Except.ok (k, s)
  | none =>
      match s.x, s.y with
      | some xm, some ym =>
          let k := B.Knm xm ym
          Except.ok (k, { s with knm := some k })
      | _, _ => Except.error "backend error: Knm called on None"

/-- `Kernel.get_knm_inv()` on the default-argument path
(`epsilon = self.reg`, `epsilon_delta = None`): lazily computes
`core.op.Knm_inv(get_x(), get_y(), reg, [])` and stores it; the private
setter `_set_knm_inv` also clears theta. -/
def get_knm_inv (B : Backend) (s : KernelState) :
    Except String (Mat × KernelState) :=
  match s.knm_inv with
  | some k => Except.ok (k, s)
  | none =>
      let s1 := match s.y with
        | none => { s with y := s.x }
        | some _ => s
      match s1.x, s1.y with
      | some xm, some ym =>
          let k := B.KnmInv xm ym s1.reg
          Except.ok (k, set_theta { s1 with knm_inv := some k } none)
      | _, _ => Except.error "backend error: Knm_inv called on None"

/-- `Kernel._get_polyvariables()`: lazily (re)fits the polynomial model
from the stored `x`, `fx` when the variables are absent. -/
def get_polyvariables (B : Backend) (s : KernelState) :
    Option Mat × KernelState :=
  match s.order with
  | none => (none, s)
  | some _ =>
      match s.polyvariables with
      | some v => (some v, s)
      | none =>
          let s1 := setPolyReg B s s.x s.fx
          (s1.polyvariables, s1)

/-- `Kernel._get_polynomial_kernel()`: lazily (re)fits the polynomial
model when the fitted regressor is absent. -/
def get_polynomial_kernel (B : Backend) (s : KernelState) :
    Option (Mat × Mat) × KernelState :=
  match s.order with
  | none => (none, s)
  | some _ =>
      match s.polynomial_kernel with
      | some pk => (some pk, s)
      | none =>
          let s1 := setPolyReg B s s.x s.fx
          (s1.polynomial_kernel, s1)

/-- `Kernel.get_polynomial_values()`: lazily (re)fits, then returns the
fitted values over the stored `x`. -/
def get_polynomial_values (B : Backend) (s : KernelState) :
    Option Mat × KernelState :=
  match s.order with
  | none => (none, s)
  | some _ =>
      match s.polynomial_values with
      | some v => (some v, s)
      | none =>
          let s1 := setPolyReg B s s.x s.fx
          (s1.polynomial_values, s1)

/-- `Kernel.get_polynomial_regressor(z)` with default `x`, `fx`
arguments: returns the fitted polynomial model evaluated on the feature
expansion of `z`, or `None` when no order is configured or no model can
be fitted. -/
def get_polynomial_regressor (B : Backend) (s : KernelState) (z : Mat) :
    Option Mat × KernelState :=
  match s.order with
  | none => (none, s)
  | some d =>
      let (_, s1) := get_polyvariables B s
      let (pk, s2) := get_polynomial_kernel B s1
      let zvars := B.polyFeatures d z
      match pk with
      | some (v, f) => (some (B.polyFitPredict v f zvars), s2)
      | none => (none, s2)

/-- `Kernel.get_theta()`: cached theta when present; otherwise solves
the (polynomially detrended, when an order is configured) `fx` against
the lazily computed Gram inverse, storing the result. -/
def get_theta (B : Backend) (s : KernelState) :
    Except String (Option Mat × KernelState) :=
  match s.theta with
  | some t => Except.ok (some t, s)
  | none =>
      match s.order, s.fx with
      | some _, some fxm =>
          match s.x with
          | none =>
              Except.error "backend error: polynomial features of None"
          | some xm =>
              let (pr, s1) := get_polynomial_regressor B s xm
              match pr with
              | none =>
                  Except.error
                    "TypeError: unsupported operand types for sub"
              | some prv =>
                  let fxd := matSub fxm prv
                  match get_knm_inv B s1 with
                  | Except.error e => Except.error e
                  | Except.ok (kinv, s2) =>
                      let th := matMul kinv fxd
                      Except.ok (some th, { s2 with theta := some th })
      | _, _ =>
          match s.fx with
          | none => Except.ok (none, { s with theta := none })
          | some fxm =>
              match get_knm_inv B s with
              | Except.error e => Except.error e
              | Except.ok (kinv, s2) =>
                  let th := matMul kinv fxm
                  Except.ok (some th, { s2 with theta := some th })

/-- `Kernel.__call__(z)` (predict): `K(z, Y)` applied to theta — or to
the Gram inverse when theta is absent — plus, when an order is
configured, the polynomial regressor at `z`, which the code adds
without a `None` guard (`Knm += polynomial_regressor`). -/
def callK (B : Backend) (s : KernelState) (z : Mat) :
    Except String (Mat × KernelState) :=
  let s0 := rescale s
  match get_theta B s0 with
  | Except.error e => Except.error e
  | Except.ok (fyTheta, s1) =>
      let step :=
        match fyTheta with
        | some t => Except.ok (t, s1)
        | none => get_knm_inv B s1
      match step with
      | Except.error e => Except.error e
      | Except.ok (fy, s2) =>
          let s2a := match s2.y with
            | none => set_y s2 none
            | some _ => s2
          match s2a.y with
          | none => Except.error "backend error: Knm called on None"
          | some ym =>
              let knmProd := matMul (B.Knm z ym) fy
              match s2a.order with
              | none => Except.ok (knmProd, s2a)
              | some _ =>
                  let (pr, s3) := get_polynomial_regressor B s2a z
                  match pr with
                  | none =>
                      Except.error
                        "TypeError: unsupported operand types for add"
                  | some prv => Except.ok (matAdd knmProd prv, s3)

/-- `Kernel.set(x, fx, y)`: the four argument configurations of the
source, in order.  The fx-only branch checks the kernel handle and the
row counts before mutating anything; the branch receiving both `x` and
`fx` performs no row-count check. -/
def setOp (_B : Backend) (s : KernelState)
    (xArg fxArg yArg : Option Mat) : Except String KernelState :=
  match xArg, fxArg with
  | none, none => Except.ok s
  | some xm, none =>
      let s1 := set_x s xm true
      let s2 := set_y s1 yArg
      let s3 := set_fx s2 none true
      Except.ok (rescale s3)
  | none, some fxm =>
      match s.kernel with
      | none => Except.error "Please input x at least once"
      | some _ =>
          match s.x with
          | none => Except.error "AttributeError: NoneType has no shape"
          | some xm =>
              if nrows fxm ≠ nrows xm then
                Except.error
                  ("fx of size " ++ toString (nrows fxm) ++
                   "must have the same size as x" ++ toString (nrows xm))
              else Except.ok (set_fx s (some fxm) true)
  | some xm, some fxm =>
      let s1 := set_x s xm true
      let s2 := set_fx s1 (some fxm) true
      let s3 := set_y s2 yArg
      Except.ok (rescale s3)

/-- The farthest-point loop of `Kernel.select` exactly as coded: at each
of the given number of iterations, the backend distance matrix between
the selected rows and the candidate rows is taken, `np.max(axis=0)` and
`np.argmax` pick the first candidate of maximal column value, and that
candidate moves from the candidate list to the selected list. -/
def fpLoop (B : Backend) (x : Mat) :
    Nat → List Nat → List Nat → List Nat
  | 0, indices, _ => indices
  | n + 1, indices, complement =>
      let d := B.Dnm (selectRows x indices) (selectRows x complement)
      let j := argmaxIdx (colMax d)
      let idx := complement.getD j 0
      fpLoop B x n (indices ++ [idx]) (complement.erase idx)

/-- Farthest-point selection as §4.3 of the spec words it (refinement
reference, for comparison with the coded loop): the selected set starts
as the singleton index 0 and every other index of `x` is a candidate. -/
def specFarthest (B : Backend) (x : Mat) (n : Nat) : List Nat :=
  fpLoop B x (n - 1) [0] (List.range' 1 (nrows x - 1))

/-- `Kernel.select(x, N, fx, all, norm_)`: refits `x`, `fx` and
rescales; with targets present, detrends when a polynomial fit exists
and delegates to the backend hybrid greedy solver (the `all=False`
branch forwards an unexpected keyword argument to `set`, a Python
`TypeError`); with targets absent, returns the identity selection when
`x` is small enough, else runs the coded farthest-point loop over
candidates `range(1, N)` and replaces `x` by the selected rows. -/
def selectOp (B : Backend) (s : KernelState) (x : Mat) (nArg : Option Nat)
    (fxArg : Option Mat) (allFlag : Bool) (norm : String) :
    Except String (List Nat × KernelState) :=
  let n := nArg.getD s.max_nystrom
  let s1 := set_x s x true
  let s2 := set_fx s1 fxArg true
  let s3 := rescale s2
  match s3.fx with
  | some fxm =>
      let (pv, s4) := get_polynomial_values B s3
      let detrended :=
        match pv with
        | some _ =>
            let (pr, s5) := get_polynomial_regressor B s4 x
            match pr with
            | some prv => Except.ok (matSub fxm prv, s5)
            | none =>
                Except.error "TypeError: unsupported operand types for sub"
        | none => Except.ok (fxm, s4)
      match detrended with
      | Except.error e => Except.error e
      | Except.ok (fxd, s5) =>
          let (th, indices) := B.hybridGreedy x fxd n norm
          if allFlag = false then
            Except.error
              "TypeError: set got an unexpected keyword argument"
          else
            let s6 := set_x s5 (selectRows x indices) false
            let s7 := set_fx s6 (some (selectRows fxm indices)) false
            let s8 := set_theta s7 (some th)
            Except.ok (indices, s8)
  | none =>
      if nrows x ≤ n then Except.ok (List.range (nrows x), s3)
      else
        let indices := fpLoop B x (n - 1) [0] (List.range' 1 (n - 1))
        let s4 := set_x s3 (selectRows x indices) true
        Except.ok (indices, s4)

/-- `Kernel.add(y, fy)`: `set` when the model is empty; otherwise runs
the backend block update on the cached Gram factors, stores its two
matrix outputs in the capital-letter attributes, then `set_x` over the
concatenated set (clearing the lowercase caches), concatenates targets
new-block-first, and clears the polynomial state. -/
def addOp (B : Backend) (s : KernelState) (yNew fyNew : Mat) :
    Except String KernelState :=
  match s.x with
  | none => setOp B s (some yNew) (some fyNew) none
  | some xm =>
      match get_knm B s with
      | Except.error e => Except.error e
      | Except.ok (k, s1) =>
          match get_knm_inv B s1 with
          | Except.error e => Except.error e
          | Except.ok (kinv, s2) =>
              let (kU, kIU, ycat) := B.blockAdd k kinv xm yNew
              let s3 := { s2 with Knm_upd := some kU,
                                  Knm_inv_upd := some kIU }
              let s4 := set_x s3 ycat true
              let s5 :=
                match s4.fx with
                | some oldfx => set_fx s4 (some (fyNew ++ oldfx)) true
                | none => set_fx s4 (some fyNew) true
              Except.ok (clearPoly s5)

/-- The permutation `Kernel.map` computes: the latent-space encoder on a
dimensionality mismatch, else the assignment solver on the backend
distance matrix. -/
def mapSigma (B : Backend) (x y : Mat) (sub : Bool) : List Nat :=
  if ncols x ≠ ncols y then B.encoder x y else B.lsap (B.Dnm x y) sub

/-- `Kernel.map(x, y, sub)`: sets `x` as the point set and `y` as the
targets, rescales, stores the computed permutation in the
`self.permutation` attribute, and re-sets `x` reordered under it. -/
def mapOp (B : Backend) (s : KernelState) (x y : Mat) (sub : Bool) :
    KernelState :=
  let s1 := set_x s x true
  let s2 := set_fx s1 (some y) true
  let s3 := rescale s2
  let sg := mapSigma B x y sub
  let s4 := { s3 with permutation := some sg }
  set_x s4 (selectRows x sg) true

/-- Unwrap an `Except` state, with a default for the error case (used
only to build concrete witness states from operations known to
succeed). -/
def okD (e : Except String KernelState) (d : KernelState) : KernelState :=
  match e with
  | Except.ok s => s
  | Except.error _ => d

/-- L1 distance between two rows, for the concrete evaluation backend. -/
def l1dist (a b : List ℤ) : ℤ := (List.zipWith (fun u v => |u - v|) a b).sum

/-- A concrete, fully computable backend used to evaluate the
operations on explicit inputs: a linear kernel, L1 distances, identity
feature expansion, and trivial combinatorial solvers. -/
def Bc : Backend :=
  { Knm := fun x y => x.map (fun r => y.map (fun c => dot r c)),
    KnmInv := fun x y _ => y.map (fun r => x.map (fun c => dot r c)),
    Dnm := fun x y => x.map (fun r => y.map (fun c => l1dist r c)),
    polyFeatures := fun _ x => x,
    polyFitPredict := fun _ f _ => f,
    hybridGreedy := fun x _ n _ => ([], List.range (min n (nrows x))),
    blockAdd := fun k kinv xo xn => (k, kinv, xo ++ xn),
    lsap := fun d _ => List.range (nrows d),
    encoder := fun x _ => List.range (nrows x) }

/-- The regularization default of `Kernel.__init__` (`1e-9`). -/
def regc : ℚ := 1 / 1000000000

/-- A freshly constructed model with no polynomial order. -/
def sEmpty : KernelState := initState none regc

/-- A freshly constructed model with polynomial order 2. -/
def sOrd2 : KernelState := initState (some 2) regc

end Codpy

namespace Codpy

instance instDecEqExcept {e a : Type} [DecidableEq e] [DecidableEq a] :
    DecidableEq (Except e a) := fun u v =>
  match u, v with
  | Except.ok p, Except.ok q =>
      if h : p = q then isTrue (by rw [h])
      else isFalse (fun hc => by cases hc; exact h rfl)
  | Except.error p, Except.error q =>
      if h : p = q then isTrue (by rw [h])
      else isFalse (fun hc => by cases hc; exact h rfl)
  | Except.ok _, Except.error _ => isFalse (fun hc => by cases hc)
  | Except.error _, Except.ok _ => isFalse (fun hc => by cases hc)

/-- Unwrap the state component of a value-returning operation, with a
default for the error case (concrete witness states only). -/
def okD2 (e : Except String (Mat × KernelState)) (d : KernelState) :
    KernelState :=
  match e with
  | Except.ok p => p.2
  | Except.error _ => d

/-- C1: for a model freshly holding `X`, `Y = w` and targets `Fx`,
prediction at `z` returns `K(z, Y)` applied to theta — theta being the
regularized solve of the (polynomially detrended, when an order is
configured) targets against `K(X, Y)` — plus the polynomial trend at `z`
when an order is configured; theta is stored after the first call, a
second call returns the identical result in the identical state, and a
cached theta is returned as stored without recomputation. -/
theorem C1_predict_formula_and_memoization (B : Backend) (x fx w z : Mat)
    (r : ℚ) (d : Nat) :
    (∃ s0 s1,
      setOp B (initState none r) (some x) (some fx) (some w) =
        Except.ok s0 ∧
      callK B s0 z =
        Except.ok (matMul (B.Knm z w) (matMul (B.KnmInv x w r) fx), s1) ∧
      s1.theta = some (matMul (B.KnmInv x w r) fx) ∧
      callK B s1 z = callK B s0 z) ∧
    (∃ s0 s1,
      setOp B (initState (some d) r) (some x) (some fx) (some w) =
        Except.ok s0 ∧
      callK B s0 z =
        Except.ok
          (matAdd
            (matMul (B.Knm z w)
              (matMul (B.KnmInv x w r)
                (matSub fx
                  (B.polyFitPredict (B.polyFeatures d x) fx
                    (B.polyFeatures d x)))))
            (B.polyFitPredict (B.polyFeatures d x) fx (B.polyFeatures d z)),
            s1) ∧
      s1.theta =
        some (matMul (B.KnmInv x w r)
          (matSub fx
            (B.polyFitPredict (B.polyFeatures d x) fx
              (B.polyFeatures d x)))) ∧
      callK B s1 z = callK B s0 z) ∧
    (∀ (s : KernelState) (t : Mat), s.theta = some t →
      get_theta B s = Except.ok (some t, s)) := by
  refine ⟨⟨_, _, rfl, rfl, rfl, rfl⟩, ⟨_, _, rfl, rfl, rfl, rfl⟩, ?_⟩
  intro s t h
  simp [get_theta, h]

/-- A state whose theta cache is set, for the C1 witness. -/
def sThetaC1 : KernelState := { sEmpty with theta := some [[5]] }

/-- C1 witness: the memoization clause of `C1_predict_formula_and_memoization`
applied at a concrete cached state — the stored theta is returned with
the state untouched. -/
theorem C1_predict_formula_and_memoization_witness :
    sThetaC1.theta = some [[5]] ∧
    get_theta Bc sThetaC1 = Except.ok (some [[5]], sThetaC1) :=
  ⟨by decide,
   (C1_predict_formula_and_memoization Bc [[1]] [[2]] [[3]] [[4]] regc
     2).2.2 sThetaC1 [[5]] (by decide)⟩

/-- C2: the claim says the farthest-point selection draws candidates
from every not-yet-selected index of `X`; the code initializes the
candidate list as `range(1, N)` instead, so on `x = [[0],[1],[10]]`
with `N = 2` it returns `[0, 1]`, while the candidate set of the claim
(all remaining indices, here including 2) gives `[0, 2]` — the point at
index 2, by far the farthest, can never be selected. -/
theorem C2_select_candidates_restricted_to_first_N :
    (selectOp Bc sEmpty [[0], [1], [10]] (some 2) none false
        "frobenius").map Prod.fst = Except.ok [0, 1] ∧
    specFarthest Bc [[0], [1], [10]] 2 = [0, 2] ∧
    ([0, 1] : List Nat) ≠ [0, 2] :=
  ⟨by decide, by decide, by decide⟩

/-- A concrete state with a populated Gram cache (for C3): `x = [[2]]`
is set and `get_knm` has been forced. -/
def sC3 : KernelState :=
  okD2 (get_knm Bc (okD (setOp Bc sEmpty (some [[2]]) none none) sEmpty))
    sEmpty

/-- C3 counterexample: `set_y` is a state mutation after which the claim
requires all caches cleared, but the cached Gram matrix `[[4]]`
(computed when `y` was `[[2]]`) survives `set_y([[3]])` and is returned
by the next `get_knm`, although the Gram matrix of the post-mutation
state is `[[6]]` — a stale observable cache. -/
theorem C3_set_y_leaves_stale_gram_cache :
    sC3.knm = some [[4]] ∧
    (set_y sC3 (some [[3]])).y = some [[3]] ∧
    (set_y sC3 (some [[3]])).knm = some [[4]] ∧
    (get_knm Bc (set_y sC3 (some [[3]]))).map Prod.fst =
      Except.ok [[(4 : ℤ)]] ∧
    Bc.Knm [[2]] [[3]] = [[6]] ∧
    ([[(4 : ℤ)]] : Mat) ≠ [[6]] :=
  ⟨by decide, by decide, by decide, by decide, by decide, by decide⟩

/-- C3 amended: `set_x` clears the Gram matrix, the Gram inverse, theta
and the polynomial trend together; `set_fx` clears theta and the
polynomial trend but retains the Gram matrix and inverse (which depend
only on `X`, `Y` and the regularization); `set_y` alone clears no cache
at all. -/
theorem C3_invalidation_per_setter (s : KernelState) (x2 fx2 : Mat) :
    ((set_x s x2 true).knm = none ∧ (set_x s x2 true).knm_inv = none ∧
     (set_x s x2 true).theta = none ∧
     (set_x s x2 true).polyvariables = none ∧
     (set_x s x2 true).polynomial_kernel = none ∧
     (set_x s x2 true).polynomial_values = none) ∧
    ((set_fx s (some fx2) true).theta = none ∧
     (set_fx s (some fx2) true).polyvariables = none ∧
     (set_fx s (some fx2) true).polynomial_kernel = none ∧
     (set_fx s (some fx2) true).polynomial_values = none ∧
     (set_fx s (some fx2) true).knm = s.knm ∧
     (set_fx s (some fx2) true).knm_inv = s.knm_inv) ∧
    ((set_y s (some x2)).knm = s.knm ∧
     (set_y s (some x2)).knm_inv = s.knm_inv ∧
     (set_y s (some x2)).theta = s.theta ∧
     (set_y s (some x2)).polynomial_values = s.polynomial_values) :=
  ⟨⟨rfl, rfl, rfl, rfl, rfl, rfl⟩, ⟨rfl, rfl, rfl, rfl, rfl, rfl⟩,
   rfl, rfl, rfl, rfl⟩

/-- A non-empty model with one point, for C4. -/
def sC4 : KernelState :=
  okD (setOp Bc sEmpty (some [[1]]) (some [[1]]) none) sEmpty

/-- C4: `add` does run the backend block update on the cached factors,
but stores its outputs in the capital-letter attributes (`self.Knm`,
`self.Knm_inv`) — which nothing reads — while `set_x` clears the actual
cache fields (`self.knm`, `self.knm_inv`); the next `get_knm` therefore
recomputes the Gram matrix over the concatenated set from scratch
(`[[1,2],[2,4]]` here) instead of using the block-updated factors. -/
theorem C4_block_update_results_discarded :
    (addOp Bc sC4 [[2]] [[3]]).map (fun s => s.Knm_upd) =
      Except.ok (some [[1]]) ∧
    (addOp Bc sC4 [[2]] [[3]]).map (fun s => s.Knm_inv_upd) =
      Except.ok (some [[1]]) ∧
    (addOp Bc sC4 [[2]] [[3]]).map (fun s => s.knm) = Except.ok none ∧
    (addOp Bc sC4 [[2]] [[3]]).map (fun s => s.knm_inv) =
      Except.ok none ∧
    (addOp Bc sC4 [[2]] [[3]]).map (fun s => s.x) =
      Except.ok (some [[1], [2]]) ∧
    (addOp Bc sC4 [[2]] [[3]]).map (fun s => s.fx) =
      Except.ok (some [[3], [1]]) ∧
    (addOp Bc sC4 [[2]] [[3]]).bind
        (fun s => (get_knm Bc s).map Prod.fst) =
      Except.ok [[1, 2], [2, 4]] ∧
    Bc.blockAdd [[1]] [[1]] [[1]] [[2]] = ([[1]], [[1]], [[1], [2]]) :=
  ⟨by decide, by decide, by decide, by decide, by decide, by decide,
   by decide, by decide⟩

/-- C5 counterexample: `set` called with both `x` (2 rows) and `fx`
(3 rows) raises nothing and stores both, although the claim requires a
dimension-mismatch failure with unchanged state whenever the supplied
`fx` row count differs from the reference row count. -/
theorem C5_both_arguments_unchecked :
    (setOp Bc sEmpty (some [[0], [1]]) (some [[1], [2], [3]]) none).map
        (fun s => s.x) = Except.ok (some [[0], [1]]) ∧
    (setOp Bc sEmpty (some [[0], [1]]) (some [[1], [2], [3]]) none).map
        (fun s => s.fx) = Except.ok (some [[1], [2], [3]]) ∧
    nrows [[1], [2], [3]] ≠ nrows [[0], [1]] :=
  ⟨by decide, by decide, by decide⟩

/-- C5 amended: the dimension-mismatch check fires only when `fx` is
supplied without `x` — there it raises before any mutation — while a
call supplying both `x` and `fx` never raises and stores both without
any row-count validation. -/
theorem C5_mismatch_checked_only_without_x (B : Backend)
    (s : KernelState) (xm fxm : Mat) (hx : s.x = some xm)
    (hk : s.kernel = some ()) (hne : nrows fxm ≠ nrows xm) :
    setOp B s none (some fxm) none =
      Except.error ("fx of size " ++ toString (nrows fxm) ++
        "must have the same size as x" ++ toString (nrows xm)) ∧
    (∀ x2 fx2 y2, ∃ s2, setOp B s (some x2) (some fx2) y2 =
      Except.ok s2) := by
  constructor
  · simp [setOp, hx, hk, hne]
  · intro x2 fx2 y2; exact ⟨_, rfl⟩

/-- A model holding `x = [[0],[1]]` with a primed kernel handle. -/
def sC5w : KernelState :=
  okD (setOp Bc sEmpty (some [[0], [1]]) none none) sEmpty

/-- C5 witness: `C5_mismatch_checked_only_without_x` at a concrete
2-row model and a 3-row `fx`. -/
theorem C5_mismatch_checked_only_without_x_witness :
    setOp Bc sC5w none (some [[1], [2], [3]]) none =
      Except.error ("fx of size " ++ toString (nrows [[1], [2], [3]]) ++
        "must have the same size as x" ++ toString (nrows [[0], [1]])) ∧
    (∀ x2 fx2 y2, ∃ s2, setOp Bc sC5w (some x2) (some fx2) y2 =
      Except.ok s2) :=
  C5_mismatch_checked_only_without_x Bc sC5w [[0], [1]] [[1], [2], [3]]
    (by decide) (by decide) (by decide)

/-- A model holding three points with targets present, for C6. -/
def sC6 : KernelState :=
  okD (setOp Bc sEmpty (some [[0], [1], [10]]) (some [[5], [6], [7]]) none)
    sEmpty

/-- C6 counterexample: on a model holding targets, `select(x, 2)` with
no targets supplied clears `Fx` to `None` (`set_fx(None)` at entry) and
replaces `X` itself by the 2-point subset, although the claim requires
`X` to keep all its points and `Fx` to be untouched, with only `Y`
updated. -/
theorem C6_select_replaces_x_and_clears_fx :
    sC6.fx = some [[5], [6], [7]] ∧
    (selectOp Bc sC6 [[0], [1], [10]] (some 2) none false "frobenius").map
        (fun p => p.2.x) = Except.ok (some [[0], [1]]) ∧
    (selectOp Bc sC6 [[0], [1], [10]] (some 2) none false "frobenius").map
        (fun p => p.2.fx) = Except.ok none ∧
    (some [[(0 : ℤ)], [1]] : Option Mat) ≠ some [[0], [1], [10]] :=
  ⟨by decide, by decide, by decide, by decide⟩

/-- C6 amended: `select(x, N)` with targets absent and more than `N`
points replaces both `X` and `Y` by the selected subset (`set_x` resets
`Y` to `X`), and clears both `Fx` and theta at entry. -/
theorem C6_select_collapses_to_subset (B : Backend) (s : KernelState)
    (x : Mat) (n : Nat) (h : n < nrows x) :
    ∃ s1, selectOp B s x (some n) none false "frobenius" =
        Except.ok (fpLoop B x (n - 1) [0] (List.range' 1 (n - 1)), s1) ∧
      s1.x = some (selectRows x (fpLoop B x (n - 1) [0]
        (List.range' 1 (n - 1)))) ∧
      s1.y = s1.x ∧ s1.fx = none ∧ s1.theta = none := by
  refine ⟨set_x (rescale (set_fx (set_x s x true) none true))
    (selectRows x (fpLoop B x (n - 1) [0] (List.range' 1 (n - 1)))) true,
    ?_, rfl, rfl, rfl, rfl⟩
  have hred : selectOp B s x (some n) none false "frobenius" =
      (if nrows x ≤ n then
        Except.ok (List.range (nrows x),
          rescale (set_fx (set_x s x true) none true))
      else
        Except.ok (fpLoop B x (n - 1) [0] (List.range' 1 (n - 1)),
          set_x (rescale (set_fx (set_x s x true) none true))
            (selectRows x (fpLoop B x (n - 1) [0] (List.range' 1 (n - 1))))
            true)) := rfl
  rw [hred, if_neg (Nat.not_le.mpr h)]

/-- C6 witness: `C6_select_collapses_to_subset` at the concrete input
of the counterexample. -/
theorem C6_select_collapses_to_subset_witness :
    ∃ s1, selectOp Bc sC6 [[0], [1], [10]] (some 2) none false
          "frobenius" =
        Except.ok (fpLoop Bc [[0], [1], [10]] 1 [0] (List.range' 1 1),
          s1) ∧
      s1.x = some (selectRows [[0], [1], [10]]
        (fpLoop Bc [[0], [1], [10]] 1 [0] (List.range' 1 1))) ∧
      s1.y = s1.x ∧ s1.fx = none ∧ s1.theta = none :=
  C6_select_collapses_to_subset Bc sC6 [[0], [1], [10]] 2 (by decide)

/-- C7 counterexample: after `map`, the computed permutation is still
present in the model state (attribute `self.permutation`), although the
claim says it is not retained anywhere after the call. -/
theorem C7_permutation_retained :
    (mapOp Bc sEmpty [[1]] [[1]] false).permutation = some [0] ∧
    some [0] ≠ (none : Option (List Nat)) :=
  ⟨by decide, by decide⟩

/-- C7 amended: after `map(x, y)` the model's `X` equals `x` reordered
under the computed permutation, but the permutation is retained in the
model's `permutation` attribute. -/
theorem C7_x_reordered_permutation_kept (B : Backend) (s : KernelState)
    (x y : Mat) (sub : Bool) :
    (mapOp B s x y sub).x = some (selectRows x (mapSigma B x y sub)) ∧
    (mapOp B s x y sub).permutation = some (mapSigma B x y sub) :=
  ⟨rfl, rfl⟩

/-- A model with polynomial order 2, two points and no targets (C8). -/
def sC8 : KernelState :=
  okD (setOp Bc sOrd2 (some [[0], [1]]) none none) sOrd2

/-- C8: with a polynomial order configured but no targets, the
polynomial regressor is legitimately absent (`None`), yet `__call__`
adds it to the kernel term without a guard (`Knm += None`), so the
prediction raises a `TypeError` although the claim requires that this
soft-optional absence never raises. -/
theorem C8_call_raises_on_absent_trend :
    sC8.order = some 2 ∧ sC8.fx = none ∧ sC8.x = some [[0], [1]] ∧
    callK Bc sC8 [[5]] =
      Except.error "TypeError: unsupported operand types for add" :=
  ⟨by decide, by decide, by decide, by decide⟩

/-- C9 counterexample: through the public `set` with both arguments,
a state with `Fx` present but of a different row count than `X` is
reachable (2-row `X`, 3-row `Fx`), violating the claimed invariant. -/
theorem C9_mismatched_state_reachable :
    (setOp Bc sEmpty (some [[0], [1]]) (some [[1], [2], [3]]) none).map
        (fun s => s.x.map nrows) = Except.ok (some 2) ∧
    (setOp Bc sEmpty (some [[0], [1]]) (some [[1], [2], [3]]) none).map
        (fun s => s.fx.map nrows) = Except.ok (some 3) ∧
    (2 : Nat) ≠ 3 :=
  ⟨by decide, by decide, by decide⟩

/-- C9 amended: the row-alignment invariant is enforced only on the
fx-only path of `set`: whenever that call succeeds, the stored `Fx` has
exactly the row count of the unchanged `X`; the two-argument path (and
`map`, which stores the target set as `Fx`) does not enforce it. -/
theorem C9_alignment_only_on_fx_path (B : Backend) (s s1 : KernelState)
    (fxm : Mat) (h : setOp B s none (some fxm) none = Except.ok s1) :
    s1.x = s.x ∧
    ∃ xm, s.x = some xm ∧ nrows fxm = nrows xm ∧ s1.fx = some fxm := by
  have hred : setOp B s none (some fxm) none =
      (match s.kernel with
       | none => Except.error "Please input x at least once"
       | some _ =>
         match s.x with
         | none => Except.error "AttributeError: NoneType has no shape"
         | some xm =>
           if nrows fxm ≠ nrows xm then
             Except.error ("fx of size " ++ toString (nrows fxm) ++
               "must have the same size as x" ++ toString (nrows xm))
           else Except.ok (set_fx s (some fxm) true)) := rfl
  rw [hred] at h
  split at h
  · cases h
  · split at h
    · cases h
    · rename_i xm hx
      split at h
      · cases h
      · rename_i hne
        have hs1 : s1 = set_fx s (some fxm) true := by
          injection h with h2; exact h2.symm
        subst hs1
        exact ⟨rfl, xm, hx, not_not.mp hne, rfl⟩

/-- The state reached from `sC5w` by a matching fx-only `set` (C9). -/
def sC9w : KernelState :=
  okD (setOp Bc sC5w none (some [[7], [8]]) none) sEmpty

/-- C9 witness: `C9_alignment_only_on_fx_path` at a concrete succeeding
fx-only call on a 2-row model. -/
theorem C9_alignment_only_on_fx_path_witness :
    sC9w.x = sC5w.x ∧
    ∃ xm, sC5w.x = some xm ∧ nrows [[(7 : ℤ)], [8]] = nrows xm ∧
      sC9w.fx = some [[7], [8]] :=
  C9_alignment_only_on_fx_path Bc sC5w sC9w [[7], [8]] (by rfl)

/-- A model with polynomial order 2 holding one point and one target
(C10 counterexample). -/
def sC10o : KernelState :=
  okD (setOp Bc sOrd2 (some [[1]]) (some [[2]]) none) sOrd2

/-- C10 counterexample: on an order-configured model holding targets,
`set` with only a reference set does discard the targets (`Fx` is
`None` afterwards), but prediction does not revert to a pure projection
operator — it raises the missing-trend `TypeError` (`Knm += None`), so
the claimed conclusion fails for order-configured models. -/
theorem C10_projection_fails_with_order :
    sC10o.fx = some [[2]] ∧ sC10o.order = some 2 ∧
    (setOp Bc sC10o (some [[3]]) none none).map (fun s => s.fx) =
      Except.ok none ∧
    (setOp Bc sC10o (some [[3]]) none none).bind
        (fun s => callK Bc s [[5]]) =
      Except.error "TypeError: unsupported operand types for add" :=
  ⟨by decide, by decide, by decide, by decide⟩

/-- C10 amended: on any model holding targets, `set` with only a
reference set discards them — `Fx` is `None` afterwards; prediction
then acts as the pure projection operator `K(z, Y) K(X, Y)^(-1)`
exactly when no polynomial order is configured, and raises the
missing-trend `TypeError` when an order is configured. -/
theorem C10_set_x_only_discards_targets (B : Backend) (s : KernelState)
    (f0 x w z : Mat) (hfx : s.fx = some f0) :
    ∃ s1, setOp B s (some x) none (some w) = Except.ok s1 ∧
      s1.fx = none ∧
      (s.order = none →
        ∃ s2, callK B s1 z =
          Except.ok (matMul (B.Knm z w) (B.KnmInv x w s.reg), s2)) ∧
      (∀ d, s.order = some d →
        callK B s1 z =
          Except.error "TypeError: unsupported operand types for add") := by
  obtain ⟨o, rg, mp, mn, sx, sy, sfx, skn, ski, sth, spv, spk, spvv, skr,
    sperm, sku, skiu⟩ := s
  refine ⟨_, rfl, rfl, ?_, ?_⟩
  · intro ho; cases ho; exact ⟨_, rfl⟩
  · intro d hd; cases hd; rfl

/-- A model holding one point and one target (C10). -/
def sC10w : KernelState :=
  okD (setOp Bc sEmpty (some [[1]]) (some [[2]]) none) sEmpty

/-- C10 witness: `C10_set_x_only_discards_targets` at a concrete
no-order model that holds targets. -/
theorem C10_set_x_only_discards_targets_witness :
    ∃ s1, setOp Bc sC10w (some [[3]]) none (some [[4]]) =
        Except.ok s1 ∧
      s1.fx = none ∧
      (sC10w.order = none →
        ∃ s2, callK Bc s1 [[5]] =
          Except.ok (matMul (Bc.Knm [[5]] [[4]])
            (Bc.KnmInv [[3]] [[4]] sC10w.reg), s2)) ∧
      (∀ d, sC10w.order = some d →
        callK Bc s1 [[5]] =
          Except.error "TypeError: unsupported operand types for add") :=
  C10_set_x_only_discards_targets Bc sC10w [[2]] [[3]] [[4]] [[5]]
    (by decide)

end Codpy
